import Mathlib

/-!
# Verification of the helmfire core subsystems

Shallow embedding of the helmfire repository's core subsystems:

* the drift detection scheduler (`pkg/drift/detector.go`),
* the substitution registry (`pkg/substitute`, `Manager`),
* the daemon supervisor lock-file logic (`pkg/daemon`).

External collaborators (the `helm diff` subprocess, the filesystem, the
OS process table, notifier sinks) are modelled as explicit parameters,
matching the spec's collaborator interfaces.  Machine-level concerns
(goroutines, mutexes, timers) are embedded as explicit state passing: the
mutex-guarded fields of a Go struct become fields of a Lean structure and
each method returns the updated structure.
-/

set_option autoImplicit false
set_option maxRecDepth 100000

namespace Helmfire

/-! ## Data model (`pkg/drift` types, `pkg/helmstate` types) -/

/-- `DriftType` from `pkg/drift`: the category of drift detected
(`configuration`, `resource`, `image`, `deletion`). -/
inductive DriftType where
  | configuration
  | resource
  | image
  | deletion
deriving DecidableEq, Repr

/-- `Severity` from `pkg/drift`: importance of the drift (`low`, `medium`, `high`). -/
inductive Severity where
  | low
  | medium
  | high
deriving DecidableEq, Repr

/-- `DriftReport` from `pkg/drift`.  `time.Time` is embedded as a `Nat`
timestamp supplied by the caller (the Go code stamps `time.Now()`);
`Namespace` is rendered `nspace` because `namespace` is a Lean keyword. -/
structure DriftReport where
  timestamp : Nat
  releaseName : String
  nspace : String
  driftType : DriftType
  severity : Severity
  details : String
  diff : String
  healed : Bool
deriving DecidableEq, Repr

/-- `Release` from `pkg/helmstate`.  The fields the modelled operations
never read (`Version`, `Values`, `Set`, `Wait`, `Labels`) are omitted;
`Installed *bool` becomes `Option Bool`. -/
structure Release where
  name : String
  nspace : String
  chart : String
  installed : Option Bool
deriving DecidableEq, Repr

/-- `HelmfileSpec` from `pkg/helmstate` (only the `Releases` list is read
by the drift detector). -/
structure HelmfileSpec where
  releases : List Release
deriving DecidableEq, Repr

/-- `helmstate.Manager`: `Spec *HelmfileSpec` becomes `Option HelmfileSpec`.
The file path and environment fields are not read by the detector. -/
structure HManager where
  spec : Option HelmfileSpec
deriving DecidableEq, Repr

/-- `Manager.GetReleases`: returns the spec's releases, or the empty list
when no spec is loaded (Go returns `nil`). -/
def HManager.GetReleases (m : HManager) : List Release :=
  match m.spec with
  | none => []
  | some s => s.releases

/-- `Manager.IsReleaseInstalled`: a release with no explicit `installed`
field defaults to installed. -/
def IsReleaseInstalled (release : Release) : Bool :=
  match release.installed with
  | none => true
  | some b => b

/-! ## Notifiers and observable events

A Go `Notifier` is an interface value with a single method
`Notify(report) error`.  It is embedded as an identifier together with a
behaviour function: `ok report = true` means `Notify` returned `nil`,
`false` means it returned an error.  The observable effect of a tick is a
trace of events: one `notified` event per `Notify` invocation (with the
report passed and the result), and one `healAttempted` event per heal
callback invocation. -/

/-- A registered notifier: identifier plus `Notify` behaviour
(`true` = success, `false` = error). -/
structure Notifier where
  id : Nat
  ok : DriftReport → Bool

/-- One observable side effect of drift handling. -/
inductive Event where
  | notified (notifierId : Nat) (report : DriftReport) (result : Bool)
  | healAttempted (releaseName : String) (success : Bool)
deriving DecidableEq, Repr

/-- The notifier loop of `handleDriftReport`: each notifier's `Notify` is
invoked in registration order; an error is only logged, the loop
continues with the remaining notifiers. -/
def notifyAll : List Notifier → DriftReport → List Event
  | [], _ => []
  | n :: rest, report =>
      Event.notified n.id report (n.ok report) :: notifyAll rest report

/-! ## The drift detector (`pkg/drift/detector.go`) -/

/-- `drift.Detector`.  The concurrency plumbing (`ctx`, `cancel`, `wg`,
`mu`, `logger`) is not state of the embedded transition system; the
mutex-guarded data fields are kept in declaration order.  The heal
callback `func(string) error` (which may be `nil`) becomes
`Option (String → Bool)` with `true` = `nil` error. -/
structure Detector where
  manager : Option HManager
  interval : Nat
  autoHeal : Bool
  notifiers : List Notifier
  running : Bool
  healFunc : Option (String → Bool)

/-- `drift.NewDetector`: autoHeal off, no notifiers, not running. -/
def NewDetector (manager : Option HManager) (interval : Nat) : Detector :=
  { manager := manager
    interval := interval
    autoHeal := false
    notifiers := []
    running := false
    healFunc := none }

/-- `Detector.AddNotifier`: appends to the notifier list. -/
def Detector.AddNotifier (d : Detector) (n : Notifier) : Detector :=
  { d with notifiers := d.notifiers ++ [n] }

/-- `Detector.EnableAutoHeal`: sets both the flag and the callback. -/
def Detector.EnableAutoHeal (d : Detector) (enable : Bool)
    (healFunc : Option (String → Bool)) : Detector :=
  { d with autoHeal := enable, healFunc := healFunc }

/-- `Detector.Start`: fails when `running` is already set, otherwise sets
`running := true` and spawns the monitoring loop. -/
def Detector.Start (d : Detector) : Except String Detector :=
  if d.running then Except.error "detector already running"
  else Except.ok { d with running := true }

/-- `Detector.Stop`: fails when not running, otherwise cancels the loop,
joins it, and clears `running`. -/
def Detector.Stop (d : Detector) : Except String Detector :=
  if !d.running then Except.error "detector not running"
  else Except.ok { d with running := false }

/-- `Detector.calculateSeverity`: thresholds on the diff length,
`> 1000` characters is high, `> 100` is medium, otherwise low. -/
def calculateSeverity (diff : String) : Severity :=
  let diffLen := diff.length
  if diffLen > 1000 then Severity.high
  else if diffLen > 100 then Severity.medium
  else Severity.low

/-- `Detector.classifyDrift`: always `configuration`. -/
def classifyDrift (_diff : String) : DriftType :=
  DriftType.configuration

/-- The report literal built by `checkReleaseDrift` on a non-empty diff. -/
def detectionReport (now : Nat) (release : Release) (diff : String) : DriftReport :=
  { timestamp := now
    releaseName := release.name
    nspace := release.nspace
    driftType := classifyDrift diff
    severity := calculateSeverity diff
    details := "Configuration drift detected"
    diff := diff
    healed := false }

/-- `Detector.checkReleaseDrift`.  The external diff collaborator
(`manager.DiffRelease`, a `helm diff` subprocess) is a parameter
`diffFn : Release → Except String String`; `now` stands for `time.Now()`.
An error from the collaborator is logged and yields no report; an empty
diff yields no report; otherwise a fresh report with `healed := false`. -/
def checkReleaseDrift (diffFn : Release → Except String String) (now : Nat)
    (release : Release) : Option DriftReport :=
  match diffFn release with
  | Except.error _ => none
  | Except.ok diff =>
      if diff = "" then none
      else some (detectionReport now release diff)

/-- The in-place update `handleDriftReport` applies to a report after a
successful auto-heal: `Healed = true` and the updated `Details` text. -/
def healedReport (report : DriftReport) : DriftReport :=
  { report with
      healed := true
      details := "Configuration drift detected and auto-healed" }

/-- `Detector.handleDriftReport`: dispatch to every notifier in order,
then, only when auto-heal is enabled **and** the callback is non-nil,
invoke the callback; on success flip `healed`, update `details` and
re-dispatch the updated report; on failure only log. -/
def Detector.handleDriftReport (d : Detector) (report : DriftReport) : List Event :=
  let detection := notifyAll d.notifiers report
  match d.autoHeal, d.healFunc with
  | true, some healFunc =>
      if healFunc report.releaseName then
        detection ++ [Event.healAttempted report.releaseName true]
          ++ notifyAll d.notifiers (healedReport report)
      else
        detection ++ [Event.healAttempted report.releaseName false]
  | _, _ => detection

/-- Loop body of `Detector.checkDrift` for one release: releases not
marked installed are skipped, a `nil` report yields nothing, otherwise
the report is handled. -/
def Detector.checkDriftStep (d : Detector) (diffFn : Release → Except String String)
    (now : Nat) (r : Release) : List Event :=
  if IsReleaseInstalled r then
    match checkReleaseDrift diffFn now r with
    | none => []
    | some report => d.handleDriftReport report
  else []

/-- The per-release loop of `Detector.checkDrift` over a release list. -/
def Detector.checkDriftList (d : Detector) (diffFn : Release → Except String String)
    (now : Nat) : List Release → List Event
  | [] => []
  | r :: rest => d.checkDriftStep diffFn now r ++ d.checkDriftList diffFn now rest

/-- `Detector.checkDrift`: one tick.  No manager or no releases means
nothing to check; otherwise every release is processed in order. -/
def Detector.checkDrift (d : Detector) (diffFn : Release → Except String String)
    (now : Nat) : List Event :=
  match d.manager with
  | none => []
  | some m =>
      let releases := m.GetReleases
      if releases.isEmpty then []
      else d.checkDriftList diffFn now releases

/-- The ticking loop of `Detector.run`: each element of `ticks` is the
diff collaborator's behaviour during one tick (the collaborator may
answer differently from tick to tick); every scheduled tick performs one
`checkDrift`. -/
def Detector.runTicks (d : Detector) (now : Nat)
    (ticks : List (Release → Except String String)) : List (List Event) :=
  ticks.map (fun diffFn => d.checkDrift diffFn now)

/-! ## The substitution registry (`pkg/substitute`, `Manager`)

Go's `map[string]string` fields are embedded as association lists with
unique keys (map insertion replaces in place, deletion removes the key).
The filesystem consulted by `AddChartSubstitution` (`filepath.Abs`,
`os.Stat`) is an explicit collaborator `FileSystem`.  Each mutating
method returns the (possibly unchanged) registry together with an
optional error message, mirroring Go's in-place mutation plus `error`
return: when the error is non-`none` the registry field below records
exactly what the receiver holds after the call. -/

/-- Lookup in an association-list map (Go map read `m[k]`). -/
def lookupAL : List (String × String) → String → Option String
  | [], _ => none
  | (k', v') :: rest, k => if k' = k then some v' else lookupAL rest k

/-- Insertion into an association-list map (Go map write `m[k] = v`):
replaces the existing binding for the key, or appends a fresh one. -/
def insertAL : List (String × String) → String → String → List (String × String)
  | [], k, v => [(k, v)]
  | (k', v') :: rest, k, v =>
      if k' = k then (k, v) :: rest else (k', v') :: insertAL rest k v

/-- Deletion from an association-list map (Go `delete(m, k)`). -/
def eraseAL : List (String × String) → String → List (String × String)
  | [], _ => []
  | (k', v') :: rest, k => if k' = k then rest else (k', v') :: eraseAL rest k

/-- The keys of the map are pairwise distinct — the invariant every Go
map enjoys and every operation below preserves. -/
def nodupKeys (m : List (String × String)) : Prop :=
  (m.map Prod.fst).Nodup

/-- The filesystem collaborator behind `AddChartSubstitution`:
`abs` is `filepath.Abs` (`none` = error), `exists` is whether `os.Stat`
succeeds on a path. -/
structure FileSystem where
  abs : String → Option String
  pathExists : String → Bool

/-- `filepath.Join absPath "Chart.yaml"` for an absolute directory path. -/
def joinPath (dir file : String) : String :=
  dir ++ "/" ++ file

namespace substitute

/-- `substitute.Manager`: chart overrides (original → local path) and
image overrides (original → replacement). -/
structure Manager where
  charts : List (String × String)
  images : List (String × String)

/-- `substitute.NewManager`: both maps empty. -/
def NewManager : Manager :=
  { charts := [], images := [] }

/-- `Manager.AddChartSubstitution`: resolve the path, require the
directory and its `Chart.yaml` marker to exist, then store the absolute
path.  All validation happens before any mutation. -/
def Manager.AddChartSubstitution (fs : FileSystem) (m : Manager)
    (original localPath : String) : Manager × Option String :=
  match fs.abs localPath with
  | none => (m, some "invalid local path")
  | some absPath =>
      if fs.pathExists absPath = false then
        (m, some "local path does not exist")
      else if fs.pathExists (joinPath absPath "Chart.yaml") = false then
        (m, some ("not a valid chart directory (missing Chart.yaml): " ++ absPath))
      else
        ({ m with charts := insertAL m.charts original absPath }, none)

/-- `Manager.AddImageSubstitution`: both references must be non-empty. -/
def Manager.AddImageSubstitution (m : Manager)
    (original replacement : String) : Manager × Option String :=
  if original = "" ∨ replacement = "" then
    (m, some "image references cannot be empty")
  else
    ({ m with images := insertAL m.images original replacement }, none)

/-- `Manager.RemoveChartSubstitution`: not-found error when the key has
no binding, otherwise delete it. -/
def Manager.RemoveChartSubstitution (m : Manager) (original : String) :
    Manager × Option String :=
  match lookupAL m.charts original with
  | none => (m, some ("chart substitution not found: " ++ original))
  | some _ => ({ m with charts := eraseAL m.charts original }, none)

/-- `Manager.RemoveImageSubstitution`: not-found error when the key has
no binding, otherwise delete it. -/
def Manager.RemoveImageSubstitution (m : Manager) (original : String) :
    Manager × Option String :=
  match lookupAL m.images original with
  | none => (m, some ("image substitution not found: " ++ original))
  | some _ => ({ m with images := eraseAL m.images original }, none)

/-- `Manager.GetChartPath`: pure lookup, `(path, found)` in Go. -/
def Manager.GetChartPath (m : Manager) (original : String) : Option String :=
  lookupAL m.charts original

/-- `Manager.GetImageReplacement`: pure lookup, `(replacement, found)` in Go. -/
def Manager.GetImageReplacement (m : Manager) (original : String) : Option String :=
  lookupAL m.images original

end substitute

/-! ## The daemon supervisor (`pkg/daemon`): lock-file mutual exclusion

The OS is the collaborator: a file store (`os.ReadFile` /
`os.WriteFile` / `os.Remove` on the PID file), a process-liveness probe
(`FindProcess` + `Signal(0)`; on this platform `FindProcess` always
succeeds, the signal probe decides liveness), and the current process
id. -/

namespace daemon

/-- The operating-system state the daemon supervisor touches. -/
structure SysState where
  files : String → Option String
  alive : Nat → Bool
  selfPid : Nat

/-- `os.WriteFile` on the modelled file store. -/
def writeFile (sys : SysState) (path content : String) : SysState :=
  { sys with files := fun f => if f = path then some content else sys.files f }

/-- `os.Remove` on the modelled file store. -/
def removeFile (sys : SysState) (path : String) : SysState :=
  { sys with files := fun f => if f = path then none else sys.files f }

/-- `strings.TrimSpace`: strip leading and trailing whitespace. -/
def trimSpace (s : String) : String :=
  String.mk (((s.data.dropWhile Char.isWhitespace).reverse.dropWhile
    Char.isWhitespace).reverse)

/-- `strconv.Atoi` restricted to the non-negative decimal process ids
the daemon writes (`fmt.Sprintf "%d\n"`): all-digit non-empty input
parses, anything else is an error. -/
def parsePid (s : String) : Option Nat :=
  if s.data ≠ [] ∧ s.data.all (fun c => c.isDigit) then
    some (s.data.foldl (fun acc c => acc * 10 + (c.toNat - 48)) 0)
  else none

/-- `daemon.IsDaemonRunning`: a missing PID file means not running (no
error); unparsable content is an error; otherwise the answer is the
liveness probe on the recorded pid. -/
def IsDaemonRunning (sys : SysState) (pidFile : String) : Except String Bool :=
  match sys.files pidFile with
  | none => Except.ok false
  | some data =>
      let pidStr := trimSpace data
      match parsePid pidStr with
      | none => Except.error ("invalid PID in file: " ++ pidStr)
      | some pid => Except.ok (sys.alive pid)

/-- `Daemon.writePIDFile`: writes the current process id followed by a
newline. -/
def writePIDFile (sys : SysState) (pidFile : String) : SysState :=
  writeFile sys pidFile (toString sys.selfPid ++ "\n")

/-- The daemon fields the supervisor lifecycle reads: the PID-file path
and the drift detector when one is configured.  The API server's own
bind success is the external parameter `apiStartOk` of `Daemon.Start`. -/
structure Daemon where
  pidFile : String
  detector : Option Detector

/-- `Daemon.Start`: refuse when a recorded process is alive
(`err == nil && running` in Go — a probe error does **not** block the
start), then write the PID file, start the API server, and start the
drift detector when configured.  Component failures roll the PID file
back and surface an error. -/
def Daemon.Start (d : Daemon) (sys : SysState) (apiStartOk : Bool) :
    Except String (SysState × Daemon) :=
  match IsDaemonRunning sys d.pidFile with
  | Except.ok true =>
      Except.error ("daemon already running (PID file: " ++ d.pidFile ++ ")")
  | _ =>
      let sys1 := writePIDFile sys d.pidFile
      if apiStartOk = false then
        Except.error "failed to start API server"
      else
        match d.detector with
        | none => Except.ok (sys1, d)
        | some det =>
            match det.Start with
            | Except.error _ => Except.error "failed to start drift detector"
            | Except.ok det' => Except.ok (sys1, { d with detector := some det' })

end daemon

/-! ## Shared lemmas -/

/-- The notifier loop produces exactly one `notified` event per
registered notifier, in registration order, whatever the individual
`Notify` results are. -/
theorem notifyAll_eq_map (ns : List Notifier) (report : DriftReport) :
    notifyAll ns report = ns.map (fun n => Event.notified n.id report (n.ok report)) := by
  induction ns with
  | nil => rfl
  | cons n rest ih => simp [notifyAll, ih]

/-- The per-release loop distributes over list append. -/
theorem checkDriftList_append (d : Detector) (diffFn : Release → Except String String)
    (now : Nat) (l1 l2 : List Release) :
    d.checkDriftList diffFn now (l1 ++ l2) =
      d.checkDriftList diffFn now l1 ++ d.checkDriftList diffFn now l2 := by
  induction l1 with
  | nil => rfl
  | cons r rest ih => simp [Detector.checkDriftList, ih]

/-- The reports delivered to the notifier with identifier `nid`, in
delivery order. -/
def reportsTo (nid : Nat) : List Event → List DriftReport
  | [] => []
  | Event.notified i rep _ :: rest =>
      if i = nid then rep :: reportsTo nid rest else reportsTo nid rest
  | Event.healAttempted _ _ :: rest => reportsTo nid rest

theorem reportsTo_append (nid : Nat) (l1 l2 : List Event) :
    reportsTo nid (l1 ++ l2) = reportsTo nid l1 ++ reportsTo nid l2 := by
  induction l1 with
  | nil => rfl
  | cons e rest ih =>
      cases e with
      | notified i rep res =>
          by_cases h : i = nid <;> simp [reportsTo, h, ih]
      | healAttempted s b => simp [reportsTo, ih]

theorem reportsTo_notifyAll_not_mem (nid : Nat) (ns : List Notifier)
    (report : DriftReport) (h : nid ∉ ns.map Notifier.id) :
    reportsTo nid (notifyAll ns report) = [] := by
  induction ns with
  | nil => rfl
  | cons n rest ih =>
      simp only [List.map_cons, List.mem_cons, not_or] at h
      have hne : ¬ n.id = nid := fun he => h.1 he.symm
      simp [notifyAll, reportsTo, hne, ih h.2]

/-- With pairwise-distinct notifier identifiers, one pass of the
notifier loop delivers the report exactly once to each notifier. -/
theorem reportsTo_notifyAll (ns : List Notifier) (report : DriftReport)
    (hids : (ns.map Notifier.id).Nodup) (n : Notifier) (hn : n ∈ ns) :
    reportsTo n.id (notifyAll ns report) = [report] := by
  induction ns with
  | nil => cases hn
  | cons m rest ih =>
      simp only [List.map_cons, List.nodup_cons] at hids
      rcases List.mem_cons.mp hn with rfl | hn'
      · simp [notifyAll, reportsTo,
          reportsTo_notifyAll_not_mem n.id rest report hids.1]
      · have hne : m.id ≠ n.id := by
          intro he
          exact hids.1 (he ▸ List.mem_map_of_mem Notifier.id hn')
        simp [notifyAll, reportsTo, hne, ih hids.2 hn']

/-- A key absent from the key list has no binding. -/
theorem lookupAL_eq_none_of_not_mem (m : List (String × String)) (k : String)
    (h : k ∉ m.map Prod.fst) : lookupAL m k = none := by
  induction m with
  | nil => rfl
  | cons p rest ih =>
      obtain ⟨k', v'⟩ := p
      simp only [List.map_cons, List.mem_cons, not_or] at h
      have hne : ¬ k' = k := fun he => h.1 he.symm
      simp [lookupAL, hne, ih h.2]

/-- Insertion makes the inserted binding visible. -/
theorem lookupAL_insertAL_self (m : List (String × String)) (k v : String) :
    lookupAL (insertAL m k v) k = some v := by
  induction m with
  | nil => simp [insertAL, lookupAL]
  | cons p rest ih =>
      obtain ⟨k', v'⟩ := p
      by_cases hk : k' = k <;> simp [insertAL, lookupAL, hk, ih]

/-- On a map with distinct keys, deleting a key right after inserting it
leaves no binding for it. -/
theorem lookupAL_erase_insert (m : List (String × String)) (k v : String)
    (h : nodupKeys m) :
    lookupAL (eraseAL (insertAL m k v) k) k = none := by
  induction m with
  | nil => simp [insertAL, eraseAL, lookupAL]
  | cons p rest ih =>
      obtain ⟨k', v'⟩ := p
      simp only [nodupKeys, List.map_cons, List.nodup_cons] at h
      by_cases hk : k' = k
      · subst hk
        simp only [insertAL, eraseAL, if_pos rfl]
        exact lookupAL_eq_none_of_not_mem rest k' h.1
      · simp only [insertAL, eraseAL, lookupAL, if_neg hk]
        exact ih h.2

/-! ## Claims about the drift scheduler's severity computation -/

/-- **C1 (counterexample).**  A diff of exactly 100 characters is scored
`low` by `calculateSeverity` (the code tests `diffLen > 100`), not
`medium` as claimed; likewise a diff of exactly 1000 characters is
scored `medium`, not `high`. -/
theorem C1_counterexample :
    (String.mk (List.replicate 100 'a')).length = 100 ∧
    calculateSeverity (String.mk (List.replicate 100 'a')) = Severity.low ∧
    calculateSeverity (String.mk (List.replicate 100 'a')) ≠ Severity.medium ∧
    (String.mk (List.replicate 1000 'a')).length = 1000 ∧
    calculateSeverity (String.mk (List.replicate 1000 'a')) = Severity.medium ∧
    calculateSeverity (String.mk (List.replicate 1000 'a')) ≠ Severity.high := by
  decide

/-- **C1 (amended).**  `calculateSeverity` returns `low` for a diff of
at most 100 characters, `medium` for more than 100 but at most 1000
characters, and `high` for more than 1000 characters (so a diff of
exactly 100 characters is `low` and one of exactly 1000 characters is
`medium`). -/
theorem C1_severity_amended (diff : String) :
    (diff.length ≤ 100 → calculateSeverity diff = Severity.low) ∧
    (100 < diff.length → diff.length ≤ 1000 →
        calculateSeverity diff = Severity.medium) ∧
    (1000 < diff.length → calculateSeverity diff = Severity.high) := by
  unfold calculateSeverity
  refine ⟨fun h => ?_, fun h1 h2 => ?_, fun h => ?_⟩ <;>
    simp only [] <;> split_ifs <;> first | rfl | omega

/-- Witness for C1 at the spec's own test vectors: lengths 50, 500 and
1500. -/
theorem C1_severity_amended_witness :
    calculateSeverity (String.mk (List.replicate 50 'a')) = Severity.low ∧
    calculateSeverity (String.mk (List.replicate 500 'a')) = Severity.medium ∧
    calculateSeverity (String.mk (List.replicate 1500 'a')) = Severity.high :=
  ⟨(C1_severity_amended (String.mk (List.replicate 50 'a'))).1 (by decide),
   (C1_severity_amended (String.mk (List.replicate 500 'a'))).2.1
     (by decide) (by decide),
   (C1_severity_amended (String.mk (List.replicate 1500 'a'))).2.2 (by decide)⟩

/-! ## Claims about the scheduler state machine -/

/-- **C5 (counterexample).**  The detector's Stopped state is not
terminal: starting a fresh detector, stopping it, and starting it again
succeeds and returns it to Running — `Stop` merely clears the `running`
flag that `Start` checks. -/
theorem C5_counterexample :
    (NewDetector none 30).Start =
      Except.ok { NewDetector none 30 with running := true } ∧
    Detector.Stop { NewDetector none 30 with running := true } =
      Except.ok { NewDetector none 30 with running := false } ∧
    Detector.Start { NewDetector none 30 with running := false } =
      Except.ok { NewDetector none 30 with running := true } ∧
    ({ NewDetector none 30 with running := true } : Detector).running = true :=
  ⟨rfl, rfl, rfl, rfl⟩

/-- **C5 (amended).**  After a successful `Stop()`, a subsequent
`Start()` on the same detector succeeds and returns it to the Running
state: the detector is restartable, Stopped is not terminal. -/
theorem C5_amended_restartable (d d' : Detector) (h : d.Stop = Except.ok d') :
    d'.running = false ∧
    d'.Start = Except.ok { d' with running := true } ∧
    ({ d' with running := true } : Detector).running = true := by
  unfold Detector.Stop at h
  split at h
  · exact absurd h (by simp)
  · cases h
    refine ⟨rfl, ?_, rfl⟩
    unfold Detector.Start
    rfl

/-- Witness for C5: a concrete started-then-stopped detector restarts. -/
theorem C5_amended_restartable_witness :
    (NewDetector none 30).Start = Except.ok { NewDetector none 30 with running := true } ∧
    Detector.Start (NewDetector none 30) = Except.ok { NewDetector none 30 with running := true } ∧
    ({ NewDetector none 30 with running := false } : Detector).Start =
      Except.ok { { NewDetector none 30 with running := false } with running := true } :=
  ⟨rfl, rfl,
    (C5_amended_restartable { NewDetector none 30 with running := true }
      { NewDetector none 30 with running := false } rfl).2.1⟩

/-- **C6.**  A second `Start()` without an intervening `Stop()` fails
with the already-running error, and the detector stays in the Running
state (the failing call returns before any mutation). -/
theorem C6_double_start (d d' : Detector) (h : d.Start = Except.ok d') :
    d'.running = true ∧
    d'.Start = Except.error "detector already running" := by
  unfold Detector.Start at h
  split at h
  · exact absurd h (by simp)
  · cases h
    refine ⟨rfl, ?_⟩
    unfold Detector.Start
    rfl

/-- Witness for C6 at a freshly constructed detector. -/
theorem C6_double_start_witness :
    Detector.Start { NewDetector none 30 with running := true } =
      Except.error "detector already running" :=
  (C6_double_start (NewDetector none 30)
    { NewDetector none 30 with running := true } rfl).2

/-! ## Claims about tick processing and notification fan-out -/

/-- **C2.**  For a unit marked installed, with auto-heal disabled: an
empty diff yields no report and no dispatch; a non-empty diff yields
exactly one detection report (type `configuration`, `healed = false`,
for that unit), delivered once to every registered notifier in
registration order — the trace equation holds for arbitrary per-notifier
results, so one notifier's failure never suppresses the rest. -/
theorem C2_unit_dispatch (d : Detector) (diffFn : Release → Except String String)
    (now : Nat) (r : Release) (diff : String)
    (hinst : IsReleaseInstalled r = true)
    (hah : d.autoHeal = false) :
    (diffFn r = Except.ok "" →
        checkReleaseDrift diffFn now r = none ∧
        d.checkDriftStep diffFn now r = []) ∧
    (diffFn r = Except.ok diff → diff ≠ "" →
        d.checkDriftStep diffFn now r =
          d.notifiers.map (fun n =>
            Event.notified n.id (detectionReport now r diff)
              (n.ok (detectionReport now r diff))) ∧
        (detectionReport now r diff).driftType = DriftType.configuration ∧
        (detectionReport now r diff).healed = false ∧
        (detectionReport now r diff).releaseName = r.name) := by
  constructor
  · intro hdiff
    have h1 : checkReleaseDrift diffFn now r = none := by
      simp [checkReleaseDrift, hdiff]
    exact ⟨h1, by simp [Detector.checkDriftStep, hinst, h1]⟩
  · intro hdiff hne
    have h1 : checkReleaseDrift diffFn now r = some (detectionReport now r diff) := by
      simp [checkReleaseDrift, hdiff, hne]
    refine ⟨?_, rfl, rfl, rfl⟩
    cases hhf : d.healFunc <;>
      simp [Detector.checkDriftStep, hinst, h1, Detector.handleDriftReport,
        hah, hhf, notifyAll_eq_map]

/-- The release of the spec's scenario: unit `"nginx"`. -/
def nginxRelease : Release :=
  { name := "nginx", nspace := "default", chart := "bitnami/nginx", installed := none }

/-- A second managed unit, used to show error isolation between units. -/
def redisRelease : Release :=
  { name := "redis", nspace := "default", chart := "bitnami/redis", installed := none }

/-- Two test notifiers; the first always fails, the second always
succeeds. -/
def witnessNotifiers : List Notifier :=
  [{ id := 1, ok := fun _ => false }, { id := 2, ok := fun _ => true }]

/-- A running detector over the two test units with the two test
notifiers and auto-heal off. -/
def witnessDetector : Detector :=
  { manager := some { spec := some { releases := [nginxRelease, redisRelease] } }
    interval := 30
    autoHeal := false
    notifiers := witnessNotifiers
    running := true
    healFunc := none }

/-- A diff collaborator answering `"some diff"` for every unit. -/
def someDiffFn : Release → Except String String :=
  fun _ => Except.ok "some diff"

/-- Witness for C2: one tick step on `"nginx"` with diff `"some diff"`
delivers exactly one `healed = false` report to each of the two
notifiers, in order, although the first notifier fails. -/
theorem C2_unit_dispatch_witness :
    witnessDetector.checkDriftStep someDiffFn 0 nginxRelease =
      [Event.notified 1 (detectionReport 0 nginxRelease "some diff") false,
       Event.notified 2 (detectionReport 0 nginxRelease "some diff") true] :=
  (((C2_unit_dispatch witnessDetector someDiffFn 0 nginxRelease "some diff"
      rfl rfl).2 rfl (by decide)).1).trans rfl

/-- **C3.**  With auto-heal enabled and a non-nil callback: on callback
success the report is re-dispatched with `healed = true` and the updated
details, so each notifier sees the detection and then the resolution, in
that order; on callback failure only the detection dispatch happens and
every delivered report is the unhealed original. -/
theorem C3_autoheal (d : Detector) (report : DriftReport) (h : String → Bool)
    (hah : d.autoHeal = true) (hhf : d.healFunc = some h)
    (hids : (d.notifiers.map Notifier.id).Nodup) :
    (h report.releaseName = true →
        d.handleDriftReport report =
          notifyAll d.notifiers report
            ++ [Event.healAttempted report.releaseName true]
            ++ notifyAll d.notifiers (healedReport report) ∧
        (healedReport report).healed = true ∧
        ∀ n ∈ d.notifiers,
          reportsTo n.id (d.handleDriftReport report) =
            [report, healedReport report]) ∧
    (h report.releaseName = false →
        d.handleDriftReport report =
          notifyAll d.notifiers report
            ++ [Event.healAttempted report.releaseName false] ∧
        ∀ n ∈ d.notifiers,
          reportsTo n.id (d.handleDriftReport report) = [report]) := by
  constructor
  · intro hsucc
    have htrace : d.handleDriftReport report =
        notifyAll d.notifiers report
          ++ [Event.healAttempted report.releaseName true]
          ++ notifyAll d.notifiers (healedReport report) := by
      simp [Detector.handleDriftReport, hah, hhf, hsucc]
    refine ⟨htrace, rfl, fun n hn => ?_⟩
    rw [htrace, reportsTo_append, reportsTo_append,
      reportsTo_notifyAll d.notifiers report hids n hn,
      reportsTo_notifyAll d.notifiers (healedReport report) hids n hn]
    simp [reportsTo]
  · intro hfail
    have htrace : d.handleDriftReport report =
        notifyAll d.notifiers report
          ++ [Event.healAttempted report.releaseName false] := by
      simp [Detector.handleDriftReport, hah, hhf, hfail]
    refine ⟨htrace, fun n hn => ?_⟩
    rw [htrace, reportsTo_append,
      reportsTo_notifyAll d.notifiers report hids n hn]
    simp [reportsTo]

/-- The detector of the auto-heal scenario: same units and notifiers,
auto-heal enabled with an always-succeeding callback. -/
def healDetector : Detector :=
  { witnessDetector with autoHeal := true, healFunc := some (fun _ => true) }

/-- Witness for C3: handling the `"nginx"` detection report with a
successful heal callback delivers the unhealed report to both notifiers,
then attempts the heal, then delivers the healed report to both
notifiers. -/
theorem C3_autoheal_witness :
    healDetector.handleDriftReport (detectionReport 0 nginxRelease "some diff") =
      [Event.notified 1 (detectionReport 0 nginxRelease "some diff") false,
       Event.notified 2 (detectionReport 0 nginxRelease "some diff") true,
       Event.healAttempted "nginx" true,
       Event.notified 1 (healedReport (detectionReport 0 nginxRelease "some diff")) false,
       Event.notified 2 (healedReport (detectionReport 0 nginxRelease "some diff")) true] :=
  ((((C3_autoheal healDetector (detectionReport 0 nginxRelease "some diff")
      (fun _ => true) rfl rfl (by decide)).1) rfl).1).trans rfl

/-- **C4.**  A diff-collaborator error for one unit empties only that
unit's contribution to the tick: the tick trace over any release list
containing the failing unit equals the traces of the units before and
after it, and every scheduled tick of the loop still runs (one
`checkDrift` per tick, whatever the collaborator answers). -/
theorem C4_diff_error_isolation (d : Detector) (diffFn : Release → Except String String)
    (now : Nat) (rs1 rs2 : List Release) (r : Release) (e : String)
    (herr : diffFn r = Except.error e) :
    d.checkDriftStep diffFn now r = [] ∧
    d.checkDriftList diffFn now (rs1 ++ r :: rs2) =
      d.checkDriftList diffFn now rs1 ++ d.checkDriftList diffFn now rs2 ∧
    ∀ ticks : List (Release → Except String String),
      (d.runTicks now ticks).length = ticks.length := by
  have hnone : checkReleaseDrift diffFn now r = none := by
    simp [checkReleaseDrift, herr]
  have hstep : d.checkDriftStep diffFn now r = [] := by
    by_cases hi : IsReleaseInstalled r <;>
      simp [Detector.checkDriftStep, hi, hnone]
  refine ⟨hstep, ?_, fun ticks => by simp [Detector.runTicks]⟩
  rw [checkDriftList_append]
  simp [Detector.checkDriftList, hstep]

/-- A diff collaborator failing on `"nginx"` and reporting drift on
every other unit. -/
def mixedDiffFn : Release → Except String String := fun r =>
  if r.name = "nginx" then Except.error "helm diff failed" else Except.ok "some diff"

/-- Witness for C4: in a tick over `[nginx, redis]` where the
collaborator errors on `nginx`, the `redis` unit is still fully
processed (its two notifications are dispatched) and nothing is emitted
for `nginx`. -/
theorem C4_diff_error_isolation_witness :
    witnessDetector.checkDriftList mixedDiffFn 0 [nginxRelease, redisRelease] =
      [Event.notified 1 (detectionReport 0 redisRelease "some diff") false,
       Event.notified 2 (detectionReport 0 redisRelease "some diff") true] :=
  ((C4_diff_error_isolation witnessDetector mixedDiffFn 0 [] [redisRelease]
      nginxRelease "helm diff failed" rfl).2.1).trans rfl

/-- **C10.**  Enabling auto-heal with a nil callback (as `NewDaemon`
does for `DriftAutoHeal` before an executor exists): drift handling
dispatches the detection report once to each notifier and nothing else —
no heal attempt ever appears in the trace, no report with a flipped
`healed` flag is delivered, and the nil callback is never invoked
because the `healFunc != nil` guard rules the heal branch out. -/
theorem C10_nil_heal_callback (d0 : Detector) (report : DriftReport) :
    (d0.EnableAutoHeal true none).autoHeal = true ∧
    (d0.EnableAutoHeal true none).healFunc = none ∧
    (d0.EnableAutoHeal true none).handleDriftReport report =
      notifyAll d0.notifiers report ∧
    (∀ e ∈ (d0.EnableAutoHeal true none).handleDriftReport report,
        ∃ i result, e = Event.notified i report result) := by
  have htrace : (d0.EnableAutoHeal true none).handleDriftReport report =
      notifyAll d0.notifiers report := by
    simp [Detector.handleDriftReport, Detector.EnableAutoHeal]
  refine ⟨rfl, rfl, htrace, ?_⟩
  intro e he
  rw [htrace, notifyAll_eq_map] at he
  obtain ⟨n, _, rfl⟩ := List.mem_map.mp he
  exact ⟨n.id, n.ok report, rfl⟩

/-- Witness for C10: the daemon-style detector (auto-heal on, nil
callback) emits exactly the two detection notifications and no heal
event. -/
theorem C10_nil_heal_callback_witness :
    (witnessDetector.EnableAutoHeal true none).handleDriftReport
        (detectionReport 0 nginxRelease "some diff") =
      [Event.notified 1 (detectionReport 0 nginxRelease "some diff") false,
       Event.notified 2 (detectionReport 0 nginxRelease "some diff") true] :=
  ((C10_nil_heal_callback witnessDetector
      (detectionReport 0 nginxRelease "some diff")).2.2.1).trans rfl

/-! ## Claims about the substitution registry -/

/-- **C7.**  Every mutating registry operation that returns an error
leaves the registry exactly as it was: a chart or image add that fails
validation mutates nothing, an invalid local path (missing directory or
missing `Chart.yaml` marker) makes `AddChartSubstitution` fail, and a
remove of an unbound key fails with the not-found error while both maps
stay unchanged. -/
theorem C7_registry_atomicity (fs : FileSystem) (m : substitute.Manager)
    (o p k : String) :
    ((substitute.Manager.AddChartSubstitution fs m o p).2.isSome →
        (substitute.Manager.AddChartSubstitution fs m o p).1 = m) ∧
    ((substitute.Manager.AddImageSubstitution m o p).2.isSome →
        (substitute.Manager.AddImageSubstitution m o p).1 = m) ∧
    (∀ a, fs.abs p = some a → fs.pathExists a = false →
        substitute.Manager.AddChartSubstitution fs m o p =
          (m, some "local path does not exist")) ∧
    (∀ a, fs.abs p = some a → fs.pathExists a = true →
        fs.pathExists (joinPath a "Chart.yaml") = false →
        substitute.Manager.AddChartSubstitution fs m o p =
          (m, some ("not a valid chart directory (missing Chart.yaml): " ++ a))) ∧
    (lookupAL m.charts k = none →
        substitute.Manager.RemoveChartSubstitution m k =
          (m, some ("chart substitution not found: " ++ k))) ∧
    (lookupAL m.images k = none →
        substitute.Manager.RemoveImageSubstitution m k =
          (m, some ("image substitution not found: " ++ k))) := by
  refine ⟨?_, ?_, ?_, ?_, ?_, ?_⟩
  · intro herr
    simp only [substitute.Manager.AddChartSubstitution] at herr ⊢
    cases habs : fs.abs p with
    | none => simp [habs]
    | some a =>
        simp only [habs] at herr ⊢
        by_cases h1 : fs.pathExists a = false
        · simp [h1]
        · simp only [h1, if_false, if_neg] at herr ⊢
          by_cases h2 : fs.pathExists (joinPath a "Chart.yaml") = false
          · simp [h1, h2]
          · simp [h1, h2] at herr
  · intro herr
    simp only [substitute.Manager.AddImageSubstitution] at herr ⊢
    by_cases h1 : o = "" ∨ p = ""
    · simp [h1]
    · simp [h1] at herr
  · intro a habs h1
    simp [substitute.Manager.AddChartSubstitution, habs, h1]
  · intro a habs h1 h2
    simp [substitute.Manager.AddChartSubstitution, habs, h1, h2]
  · intro hlk
    simp [substitute.Manager.RemoveChartSubstitution, hlk]
  · intro hlk
    simp [substitute.Manager.RemoveImageSubstitution, hlk]

/-- A filesystem on which no path exists: every `os.Stat` fails. -/
def emptyFS : FileSystem :=
  { abs := fun p => some ("/abs/" ++ p), pathExists := fun _ => false }

/-- Witness for C7: on the empty filesystem a chart add fails leaving
the fresh registry untouched, and removes of an unbound key fail with
the not-found errors. -/
theorem C7_registry_atomicity_witness :
    substitute.Manager.AddChartSubstitution emptyFS substitute.NewManager "o" "p" =
      (substitute.NewManager, some "local path does not exist") ∧
    substitute.Manager.RemoveChartSubstitution substitute.NewManager "o" =
      (substitute.NewManager, some ("chart substitution not found: " ++ "o")) ∧
    substitute.Manager.RemoveImageSubstitution substitute.NewManager "o" =
      (substitute.NewManager, some ("image substitution not found: " ++ "o")) := by
  have h := C7_registry_atomicity emptyFS substitute.NewManager "o" "p" "o"
  exact ⟨h.2.2.1 ("/abs/" ++ "p") rfl rfl, h.2.2.2.2.1 rfl, h.2.2.2.2.2 rfl⟩

/-- **C9.**  Round-trip: a successful `AddChartSubstitution (o, p)`
followed by `RemoveChartSubstitution o` succeeds, and the subsequent
`GetChartPath o` lookup finds nothing.  (`GetChartPath` is a pure
lookup: its Go signature returns `(path, found)` with no error value,
embedded as an `Option` with no error case.) -/
theorem C9_roundtrip (fs : FileSystem) (m : substitute.Manager) (o p : String)
    (hnodup : nodupKeys m.charts)
    (hok : (substitute.Manager.AddChartSubstitution fs m o p).2 = none) :
    (substitute.Manager.RemoveChartSubstitution
        (substitute.Manager.AddChartSubstitution fs m o p).1 o).2 = none ∧
    substitute.Manager.GetChartPath
      (substitute.Manager.RemoveChartSubstitution
        (substitute.Manager.AddChartSubstitution fs m o p).1 o).1 o = none := by
  simp only [substitute.Manager.AddChartSubstitution] at hok ⊢
  cases habs : fs.abs p with
  | none => simp [habs] at hok
  | some a =>
      simp only [habs] at hok ⊢
      by_cases h1 : fs.pathExists a = false
      · simp [h1] at hok
      · by_cases h2 : fs.pathExists (joinPath a "Chart.yaml") = false
        · simp [h1, h2] at hok
        · rw [if_neg h1, if_neg h2]
          simp only [substitute.Manager.RemoveChartSubstitution,
            substitute.Manager.GetChartPath, lookupAL_insertAL_self]
          exact ⟨trivial, lookupAL_erase_insert m.charts o a hnodup⟩

/-- A filesystem on which every path exists (valid chart directories
everywhere). -/
def fullFS : FileSystem :=
  { abs := fun p => some ("/abs/" ++ p), pathExists := fun _ => true }

/-- Witness for C9: add `bitnami/nginx → ./charts/nginx` to a fresh
registry, remove it, look it up — not found. -/
theorem C9_roundtrip_witness :
    (substitute.Manager.RemoveChartSubstitution
        (substitute.Manager.AddChartSubstitution fullFS substitute.NewManager
          "bitnami/nginx" "./charts/nginx").1 "bitnami/nginx").2 = none ∧
    substitute.Manager.GetChartPath
      (substitute.Manager.RemoveChartSubstitution
        (substitute.Manager.AddChartSubstitution fullFS substitute.NewManager
          "bitnami/nginx" "./charts/nginx").1 "bitnami/nginx").1 "bitnami/nginx" = none :=
  C9_roundtrip fullFS substitute.NewManager "bitnami/nginx" "./charts/nginx"
    (by simp [nodupKeys, substitute.NewManager]) rfl

/-! ## Claims about the daemon supervisor -/

/-- **C8.**  With a lock file whose recorded pid is not alive, the
daemon start succeeds and overwrites the lock file with the current
process id; with a recorded pid that is alive, the start fails with the
already-running error. -/
theorem C8_lock_file (sys : daemon.SysState) (d : daemon.Daemon)
    (content : String) (pid : Nat)
    (hfile : sys.files d.pidFile = some content)
    (hpid : daemon.parsePid (daemon.trimSpace content) = some pid)
    (hdet : ∀ det, d.detector = some det → det.running = false) :
    (sys.alive pid = false →
        ∃ out, d.Start sys true = Except.ok out ∧
          out.1.files d.pidFile = some (toString sys.selfPid ++ "\n")) ∧
    (sys.alive pid = true →
        d.Start sys true =
          Except.error ("daemon already running (PID file: " ++ d.pidFile ++ ")")) := by
  have hrun : daemon.IsDaemonRunning sys d.pidFile = Except.ok (sys.alive pid) := by
    unfold daemon.IsDaemonRunning
    rw [hfile]
    simp [hpid]
  constructor
  · intro halive
    rw [halive] at hrun
    cases hdd : d.detector with
    | none =>
        refine ⟨(daemon.writePIDFile sys d.pidFile, d), ?_, ?_⟩
        · simp [daemon.Daemon.Start, hrun, hdd]
        · simp [daemon.writePIDFile, daemon.writeFile]
    | some det =>
        have hstart : det.Start = Except.ok { det with running := true } := by
          unfold Detector.Start
          rw [if_neg (by simp [hdet det hdd])]
        refine ⟨(daemon.writePIDFile sys d.pidFile,
            { d with detector := some { det with running := true } }), ?_, ?_⟩
        · simp [daemon.Daemon.Start, hrun, hdd, hstart]
        · simp [daemon.writePIDFile, daemon.writeFile]
  · intro halive
    rw [halive] at hrun
    simp [daemon.Daemon.Start, hrun]

/-- The OS as seen by a daemon starting over a stale lock file: the lock
file records pid 123, no process is alive, the new daemon is pid 456. -/
def staleSys : daemon.SysState :=
  { files := fun f => if f = "/tmp/helmfire.pid" then some "123\n" else none
    alive := fun _ => false
    selfPid := 456 }

/-- The same OS but with every probed process alive. -/
def liveSys : daemon.SysState :=
  { staleSys with alive := fun _ => true }

/-- A daemon on the default PID-file path with no drift detector
configured. -/
def witnessDaemon : daemon.Daemon :=
  { pidFile := "/tmp/helmfire.pid", detector := none }

/-- Witness for C8: starting over the stale lock file succeeds and the
lock file afterwards records pid 456; starting while pid 123 is alive
fails with the already-running error. -/
theorem C8_lock_file_witness :
    (∃ out, witnessDaemon.Start staleSys true = Except.ok out ∧
        out.1.files "/tmp/helmfire.pid" = some ("456" ++ "\n")) ∧
    witnessDaemon.Start liveSys true =
      Except.error ("daemon already running (PID file: " ++ "/tmp/helmfire.pid" ++ ")") := by
  constructor
  · exact (C8_lock_file staleSys witnessDaemon "123\n" 123 rfl (by decide)
      (fun det hdet => Option.noConfusion hdet)).1 rfl
  · exact (C8_lock_file liveSys witnessDaemon "123\n" 123 rfl (by decide)
      (fun det hdet => Option.noConfusion hdet)).2 rfl

end Helmfire
